import Mathlib

/-
  Verification of drivers/pps/generators/pps_gen_gpio.c, a GPIO PPS
  (pulse-per-second) signal generator.  The driver state and the four
  operations the claims are about (the hrtimer callback, the initial
  calibration loop, probe and remove, and the module init width check)
  are embedded shallowly: timestamps are pairs of integers, every clock
  read performed by GETNSTIMEOFDAY is drawn from an explicit list of
  reads, and the GPIO writes are recorded as a list of levels.
-/

namespace PpsGenGpio

/-- NSEC_PER_SEC from the kernel time headers. -/
def NSEC_PER_SEC : Int := 1000000000

/-- GPIO_PULSE_WIDTH_DEF_NS = 30 * NSEC_PER_USEC, source line 36. -/
def GPIO_PULSE_WIDTH_DEF_NS : Nat := 30000

/-- GPIO_PULSE_WIDTH_MAX_NS = 100 * NSEC_PER_USEC, source line 37. -/
def GPIO_PULSE_WIDTH_MAX_NS : Nat := 100000

/-- SAFETY_INTERVAL_NS = 10 * NSEC_PER_USEC, source line 38. -/
def SAFETY_INTERVAL_NS : Int := 10000

/-- PPS_GEN_CALIBRATE_LOOPS, source line 178. -/
def PPS_GEN_CALIBRATE_LOOPS : Nat := 100

/-- enum pps_gen_gpio_level, source lines 40-43. -/
inductive pps_gen_gpio_level where
  | PPS_GPIO_LOW
  | PPS_GPIO_HIGH
  deriving DecidableEq, Repr

open pps_gen_gpio_level

/-- struct timespec64: a wall clock time point. -/
structure Timespec where
  tv_sec : Int
  tv_nsec : Int
  deriving DecidableEq, Repr

/-- set_normalized_timespec64: bring tv_nsec into the range 0..NSEC_PER_SEC-1
    by repeatedly borrowing from or carrying into tv_sec, which is floor
    division and euclidean remainder by NSEC_PER_SEC. -/
def set_normalized_timespec (sec nsec : Int) : Timespec :=
  { tv_sec := sec + Int.ediv nsec NSEC_PER_SEC, tv_nsec := Int.emod nsec NSEC_PER_SEC }

/-- timespec64_sub: componentwise subtraction followed by normalization. -/
def timespec_sub (a b : Timespec) : Timespec :=
  set_normalized_timespec (a.tv_sec - b.tv_sec) (a.tv_nsec - b.tv_nsec)

/-- timespec64_to_ns. -/
def timespec_to_ns (ts : Timespec) : Int :=
  ts.tv_sec * NSEC_PER_SEC + ts.tv_nsec

/-- ktime_set: an absolute ktime value in nanoseconds. -/
def ktime_set (secs nsecs : Int) : Int :=
  secs * NSEC_PER_SEC + nsecs

/-- Subtraction then conversion to ns is the difference of total ns. -/
lemma timespec_to_ns_sub (a b : Timespec) :
    timespec_to_ns (timespec_sub a b) = timespec_to_ns a - timespec_to_ns b := by
  simp only [timespec_sub, set_normalized_timespec, timespec_to_ns, NSEC_PER_SEC]
  rw [show Int.ediv (a.tv_nsec - b.tv_nsec) 1000000000
        = (a.tv_nsec - b.tv_nsec) / 1000000000 from rfl,
      show Int.emod (a.tv_nsec - b.tv_nsec) 1000000000
        = (a.tv_nsec - b.tv_nsec) % 1000000000 from rfl]
  omega

/-- The latency update of the hrtimer callback, source lines 161-165: take
    the new sample if it exceeds the running average, otherwise move a
    quarter of the way towards it (C division of longs truncates). -/
def latency_tracker_update (avg lat : Int) : Int :=
  if lat > avg then lat else Int.tdiv (3 * avg + lat) 4

/-- One do-while busy loop of the callback, source lines 126-129 and
    135-138: keep reading the clock while the read is still inside the
    requested second and below the threshold; return the first read that
    leaves the loop together with the remaining reads.  The list of reads
    stands for the successive results of GETNSTIMEOFDAY; an exhausted list
    means the trace does not decide the loop and yields none. -/
def busyWait (req_sec thr : Int) : List Timespec → Option (Timespec × List Timespec)
  | [] => none
  | t :: rest =>
    if req_sec = t.tv_sec ∧ t.tv_nsec < thr then busyWait req_sec thr rest
    else some (t, rest)

/-- Everything one call of the hrtimer callback produces: the GPIO levels
    written in order, whether the missed-cycle pr_err was emitted, the new
    gpio_instr_time and hrtimer_avg_latency, and the rearmed expiry. -/
structure CbResult where
  gpio_levels : List pps_gen_gpio_level
  missed : Bool
  gpio_instr_time : Int
  hrtimer_avg_latency : Int
  expires : Int
  deriving DecidableEq, Repr

/-- hrtimer_callback, source lines 79-175.  Parameters: the module width
    parameter, the devdata gpio_instr_time, the global hrtimer_avg_latency,
    the softexpires of the timer (ts_expire_req), and the list of clock
    reads GETNSTIMEOFDAY will return, in order: the first read is
    ts_expire_real, then the reads of the two busy loops, then ts2.
    The two thresholds are computed once, at entry, from the entry value of
    gpio_instr_time (they are const locals in the source). -/
def hrtimer_callback (gpio_pulse_width_ns gpio_instr_time hrtimer_avg_latency : Int)
    (ts_expire_req : Timespec) (reads : List Timespec) : Option CbResult :=
  let time_gpio_deassert_ns := NSEC_PER_SEC - gpio_instr_time
  let time_gpio_assert_ns := time_gpio_deassert_ns - gpio_pulse_width_ns
  match reads with
  | [] => none
  | ts_expire_real :: rest =>
    if ts_expire_real.tv_sec > ts_expire_req.tv_sec then
      some { gpio_levels := [], missed := false,
             gpio_instr_time := gpio_instr_time,
             hrtimer_avg_latency := hrtimer_avg_latency,
             expires := ktime_set (ts_expire_real.tv_sec + 1)
               (time_gpio_assert_ns - hrtimer_avg_latency - SAFETY_INTERVAL_NS) }
    else if ts_expire_req.tv_sec ≠ ts_expire_real.tv_sec
            ∨ ts_expire_real.tv_nsec > time_gpio_assert_ns then
      let hrtimer_latency := timespec_to_ns (timespec_sub ts_expire_real ts_expire_req)
      let avg := latency_tracker_update hrtimer_avg_latency hrtimer_latency
      some { gpio_levels := [], missed := true,
             gpio_instr_time := gpio_instr_time,
             hrtimer_avg_latency := avg,
             expires := ktime_set (ts_expire_req.tv_sec + 1)
               (time_gpio_assert_ns - avg - SAFETY_INTERVAL_NS) }
    else
      match busyWait ts_expire_req.tv_sec time_gpio_assert_ns rest with
      | none => none
      | some (_, rest1) =>
        match busyWait ts_expire_req.tv_sec time_gpio_deassert_ns rest1 with
        | none => none
        | some (ts1, rest2) =>
          match rest2 with
          | [] => none
          | ts2 :: _ =>
            let instr := Int.tdiv
              (gpio_instr_time + timespec_to_ns (timespec_sub ts2 ts1)) 2
            let hrtimer_latency :=
              timespec_to_ns (timespec_sub ts_expire_real ts_expire_req)
            let avg := latency_tracker_update hrtimer_avg_latency hrtimer_latency
            some { gpio_levels := [PPS_GPIO_HIGH, PPS_GPIO_LOW], missed := false,
                   gpio_instr_time := instr,
                   hrtimer_avg_latency := avg,
                   expires := ktime_set (ts_expire_req.tv_sec + 1)
                     (time_gpio_assert_ns - avg - SAFETY_INTERVAL_NS) }

/-- The calibration loop of pps_gen_calibrate, source lines 184-196: each
    iteration consumes two clock reads ts1 and ts2 around one LOW write and
    accumulates ts2 - ts1 in nanoseconds.  Returns the accumulated sum and
    the GPIO levels written; none if the trace has too few reads. -/
def pps_gen_calibrate_iters : Nat → List Timespec → Option (Int × List pps_gen_gpio_level)
  | 0, _ => some (0, [])
  | n + 1, reads =>
    match reads with
    | ts1 :: ts2 :: rest =>
      match pps_gen_calibrate_iters n rest with
      | none => none
      | some (acc, sets) =>
        some (timespec_to_ns (timespec_sub ts2 ts1) + acc, PPS_GPIO_LOW :: sets)
    | _ => none

/-- pps_gen_calibrate, source lines 179-200: run PPS_GEN_CALIBRATE_LOOPS
    iterations and store the accumulated time divided by the loop count as
    the initial gpio_instr_time. -/
def pps_gen_calibrate (reads : List Timespec) : Option (Int × List pps_gen_gpio_level) :=
  match pps_gen_calibrate_iters PPS_GEN_CALIBRATE_LOOPS reads with
  | none => none
  | some (acc, sets) => some (Int.tdiv acc (PPS_GEN_CALIBRATE_LOOPS : Int), sets)

/-- pps_gen_first_timer_event, source lines 202-213. -/
def pps_gen_first_timer_event (gpio_pulse_width_ns gpio_instr_time : Int)
    (ts : Timespec) : Int :=
  ktime_set (ts.tv_sec + 1)
    (NSEC_PER_SEC - gpio_pulse_width_ns - gpio_instr_time - 3 * SAFETY_INTERVAL_NS)

/-- What pps_gen_gpio_probe does to the GPIO line and the timer. -/
structure ProbeResult where
  pre_calib_levels : List pps_gen_gpio_level
  calib_levels : List pps_gen_gpio_level
  gpio_instr_time : Int
  first_expires : Int
  deriving DecidableEq, Repr

/-- pps_gen_gpio_probe, source lines 215-269, successful path.  The GPIO is
    acquired with devm_gpiod_get(dev, pps-gen, GPIOD_OUT_LOW), which drives
    it LOW, then gpiod_direction_output(pps_gpio, PPS_GPIO_HIGH) drives it
    HIGH (source line 248); those two writes are pre_calib_levels, in order.
    Then pps_gen_calibrate runs (consuming calib_reads), and the timer is
    started at pps_gen_first_timer_event, which reads the clock (now). -/
def pps_gen_gpio_probe (gpio_pulse_width_ns : Int) (now : Timespec)
    (calib_reads : List Timespec) : Option ProbeResult :=
  match pps_gen_calibrate calib_reads with
  | none => none
  | some (instr, sets) =>
    some { pre_calib_levels := [PPS_GPIO_LOW, PPS_GPIO_HIGH],
           calib_levels := sets,
           gpio_instr_time := instr,
           first_expires := pps_gen_first_timer_event gpio_pulse_width_ns instr now }

/-- The two teardown actions of pps_gen_gpio_remove. -/
inductive RemoveStep where
  | devm_gpiod_put
  | hrtimer_cancel
  deriving DecidableEq, Repr

/-- pps_gen_gpio_remove, source lines 271-279: the actions it performs, in
    source order (line 276 releases the GPIO, line 277 cancels the timer). -/
def pps_gen_gpio_remove : List RemoveStep :=
  [RemoveStep.devm_gpiod_put, RemoveStep.hrtimer_cancel]

/-- The outcome of module init: the returned error code and whether
    platform_driver_register was reached. -/
structure InitResult where
  retval : Int
  driver_registered : Bool
  deriving DecidableEq, Repr

/-- pps_gen_gpio_init, source lines 298-307: reject a width module
    parameter above GPIO_PULSE_WIDTH_MAX_NS with -EINVAL (-22) before
    registering the platform driver. -/
def pps_gen_gpio_init (gpio_pulse_width_ns : Nat) : InitResult :=
  if gpio_pulse_width_ns > GPIO_PULSE_WIDTH_MAX_NS then
    { retval := -22, driver_registered := false }
  else
    { retval := 0, driver_registered := true }

/-- A calibration clock trace in which iteration i measures elapsed time
    ds i: the first read of each iteration is second 0 offset 0 and the
    second read is second 0 offset ds i. -/
def calib_reads_of : List Int → List Timespec
  | [] => []
  | d :: ds => ⟨0, 0⟩ :: ⟨0, d⟩ :: calib_reads_of ds

/-- Unfolding of the callback on a nonempty read trace, with the two const
    thresholds written out. -/
lemma hrtimer_callback_cons (width instr avg : Int) (req real : Timespec)
    (rest : List Timespec) :
    hrtimer_callback width instr avg req (real :: rest) =
      if real.tv_sec > req.tv_sec then
        some { gpio_levels := [], missed := false,
               gpio_instr_time := instr, hrtimer_avg_latency := avg,
               expires := ktime_set (real.tv_sec + 1)
                 (NSEC_PER_SEC - instr - width - avg - SAFETY_INTERVAL_NS) }
      else if req.tv_sec ≠ real.tv_sec ∨ real.tv_nsec > NSEC_PER_SEC - instr - width then
        some { gpio_levels := [], missed := true,
               gpio_instr_time := instr,
               hrtimer_avg_latency := latency_tracker_update avg
                 (timespec_to_ns (timespec_sub real req)),
               expires := ktime_set (req.tv_sec + 1)
                 (NSEC_PER_SEC - instr - width
                  - latency_tracker_update avg (timespec_to_ns (timespec_sub real req))
                  - SAFETY_INTERVAL_NS) }
      else
        match busyWait req.tv_sec (NSEC_PER_SEC - instr - width) rest with
        | none => none
        | some (_, rest1) =>
          match busyWait req.tv_sec (NSEC_PER_SEC - instr) rest1 with
          | none => none
          | some (ts1, rest2) =>
            match rest2 with
            | [] => none
            | ts2 :: _ =>
              some { gpio_levels := [PPS_GPIO_HIGH, PPS_GPIO_LOW], missed := false,
                     gpio_instr_time := Int.tdiv
                       (instr + timespec_to_ns (timespec_sub ts2 ts1)) 2,
                     hrtimer_avg_latency := latency_tracker_update avg
                       (timespec_to_ns (timespec_sub real req)),
                     expires := ktime_set (req.tv_sec + 1)
                       (NSEC_PER_SEC - instr - width
                        - latency_tracker_update avg
                            (timespec_to_ns (timespec_sub real req))
                        - SAFETY_INTERVAL_NS) } := rfl

/-- The read a busy wait returns is the first one that left the loop, so it
    is outside the requested second or at or above the threshold. -/
lemma busyWait_exit (req_sec thr : Int) :
    ∀ (l rest : List Timespec) (t : Timespec),
      busyWait req_sec thr l = some (t, rest) →
      req_sec ≠ t.tv_sec ∨ thr ≤ t.tv_nsec
  | [], _, _, h => by simp [busyWait] at h
  | x :: l, rest, t, h => by
    by_cases hc : req_sec = x.tv_sec ∧ x.tv_nsec < thr
    · rw [busyWait, if_pos hc] at h
      exact busyWait_exit req_sec thr l rest t h
    · rw [busyWait, if_neg hc] at h
      simp only [Option.some.injEq, Prod.mk.injEq] at h
      obtain ⟨hx, -⟩ := h
      subst hx
      push_neg at hc
      by_cases hs : req_sec = x.tv_sec
      · exact Or.inr (hc hs)
      · exact Or.inl hs

/-- A busy wait succeeds as soon as some read of the trace fails the loop
    condition. -/
lemma busyWait_succeeds (req_sec thr : Int) :
    ∀ l : List Timespec,
      (∃ t ∈ l, ¬(req_sec = t.tv_sec ∧ t.tv_nsec < thr)) →
      ∃ out rest, busyWait req_sec thr l = some (out, rest)
  | [], h => by simp at h
  | x :: l, h => by
    by_cases hc : req_sec = x.tv_sec ∧ x.tv_nsec < thr
    · obtain ⟨t, hmem, hnot⟩ := h
      rcases List.mem_cons.mp hmem with hx | hmem
      · exact absurd (hx ▸ hc) hnot
      · obtain ⟨out, rest, hout⟩ := busyWait_succeeds req_sec thr l ⟨t, hmem, hnot⟩
        exact ⟨out, rest, by rw [busyWait, if_pos hc]; exact hout⟩
    · exact ⟨x, l, by rw [busyWait, if_neg hc]⟩

/-- On the trace calib_reads_of ds the calibration loop accumulates exactly
    the sum of ds and writes one LOW per iteration. -/
lemma calibrate_iters_reads_of :
    ∀ ds : List Int,
      pps_gen_calibrate_iters ds.length (calib_reads_of ds) =
        some (ds.sum, List.replicate ds.length PPS_GPIO_LOW)
  | [] => rfl
  | d :: ds => by
    have ih := calibrate_iters_reads_of ds
    simp only [calib_reads_of, List.length_cons, pps_gen_calibrate_iters, ih,
               List.sum_cons, List.replicate]
    rw [timespec_to_ns_sub]
    simp [timespec_to_ns]

/-- Claim C3: the latency average becomes the sample when the sample exceeds
    the current average and moves a quarter of the way towards it otherwise;
    from 10000 the samples 5000, 20000, 8000 give 8750, 20000, 17000. -/
theorem C3_latency_rule :
    (∀ avg lat : Int, latency_tracker_update avg lat =
        if lat > avg then lat else Int.tdiv (3 * avg + lat) 4)
    ∧ latency_tracker_update 10000 5000 = 8750
    ∧ latency_tracker_update 8750 20000 = 20000
    ∧ latency_tracker_update 20000 8000 = 17000 :=
  ⟨fun _ _ => rfl, by decide, by decide, by decide⟩

/-- Claim C6: on a clock regression cycle, when the actual wake second is
    beyond the requested one, the callback writes no GPIO level, emits no
    missed report, keeps gpio_instr_time and hrtimer_avg_latency, and rearms
    for the second after the actual wake at the assert threshold minus the
    average latency and the safety interval. -/
theorem C6_clock_regression (width instr avg : Int) (req real : Timespec)
    (rest : List Timespec) (hreg : real.tv_sec > req.tv_sec) :
    hrtimer_callback width instr avg req (real :: rest) =
      some { gpio_levels := [], missed := false,
             gpio_instr_time := instr, hrtimer_avg_latency := avg,
             expires := ktime_set (real.tv_sec + 1)
               (NSEC_PER_SEC - instr - width - avg - SAFETY_INTERVAL_NS) } := by
  rw [hrtimer_callback_cons, if_pos hreg]

/-- Witness for C6 at a concrete regression input. -/
theorem C6_witness :
    hrtimer_callback 30000 1000 10000 ⟨100, 0⟩ [⟨105, 3⟩] =
      some { gpio_levels := [], missed := false,
             gpio_instr_time := 1000, hrtimer_avg_latency := 10000,
             expires := 106999949000 } :=
  (C6_clock_regression 30000 1000 10000 ⟨100, 0⟩ ⟨105, 3⟩ [] (by decide)).trans
    (by decide)

/-- Claim C5: on a late cycle that is not a regression, the callback writes
    no GPIO level, emits the one missed report, keeps gpio_instr_time,
    still feeds the latency sample actual minus requested to the tracker,
    and rearms anchored to the requested second plus one. -/
theorem C5_late_cycle (width instr avg : Int) (req real : Timespec)
    (rest : List Timespec)
    (hreg : ¬ real.tv_sec > req.tv_sec)
    (hlate : req.tv_sec ≠ real.tv_sec ∨ real.tv_nsec > NSEC_PER_SEC - instr - width) :
    hrtimer_callback width instr avg req (real :: rest) =
      some { gpio_levels := [], missed := true,
             gpio_instr_time := instr,
             hrtimer_avg_latency := latency_tracker_update avg
               (timespec_to_ns real - timespec_to_ns req),
             expires := ktime_set (req.tv_sec + 1)
               (NSEC_PER_SEC - instr - width
                - latency_tracker_update avg (timespec_to_ns real - timespec_to_ns req)
                - SAFETY_INTERVAL_NS) } := by
  rw [hrtimer_callback_cons, if_neg hreg, if_pos hlate, timespec_to_ns_sub]

/-- Witness for C5 at a concrete late input. -/
theorem C5_witness :
    hrtimer_callback 30000 1000 10000 ⟨100, 0⟩ [⟨100, 999970000⟩] =
      some { gpio_levels := [], missed := true,
             gpio_instr_time := 1000, hrtimer_avg_latency := 999970000,
             expires := 100999989000 } :=
  (C5_late_cycle 30000 1000 10000 ⟨100, 0⟩ ⟨100, 999970000⟩ []
      (by decide) (by decide)).trans (by decide)

/-- Claim C1, counterexample: on a concrete on-time trace the exit read of
    the first busy wait is second 100 offset 999969000 and the exit read of
    the second busy wait is second 100 offset 999999000, yet the updated
    gpio_instr_time is 1500 and not the average of the entry value 1000
    with the difference of those two exit reads, which would be 15500. -/
theorem C1_counterexample :
    (hrtimer_callback 30000 1000 10000 ⟨100, 0⟩
        [⟨100, 500⟩, ⟨100, 999969000⟩, ⟨100, 999999000⟩, ⟨101, 1000⟩]).map
        CbResult.gpio_instr_time = some 1500
    ∧ (1500 : Int) ≠ Int.tdiv
        (1000 + (timespec_to_ns ⟨100, 999999000⟩ - timespec_to_ns ⟨100, 999969000⟩)) 2 :=
  ⟨by decide, by decide⟩

/-- Claim C1, amended: on an on-time cycle the callback performs exactly the
    two transitions HIGH then LOW, the first at a read that left the assert
    busy wait and the second at a read that left the deassert busy wait, and
    updates gpio_instr_time to the truncated average of its entry value with
    measured, where measured is the clock read taken just after the LOW
    write minus the exit read of the second busy wait. -/
theorem C1_on_time_cycle (width instr avg : Int) (req real a ts1 ts2 : Timespec)
    (rest rest1 rest2 tl : List Timespec)
    (hsec : req.tv_sec = real.tv_sec)
    (hontime : real.tv_nsec ≤ NSEC_PER_SEC - instr - width)
    (hb1 : busyWait req.tv_sec (NSEC_PER_SEC - instr - width) rest = some (a, rest1))
    (hb2 : busyWait req.tv_sec (NSEC_PER_SEC - instr) rest1 = some (ts1, rest2))
    (hr2 : rest2 = ts2 :: tl) :
    hrtimer_callback width instr avg req (real :: rest) =
      some { gpio_levels := [PPS_GPIO_HIGH, PPS_GPIO_LOW], missed := false,
             gpio_instr_time := Int.tdiv
               (instr + (timespec_to_ns ts2 - timespec_to_ns ts1)) 2,
             hrtimer_avg_latency := latency_tracker_update avg
               (timespec_to_ns real - timespec_to_ns req),
             expires := ktime_set (req.tv_sec + 1)
               (NSEC_PER_SEC - instr - width
                - latency_tracker_update avg (timespec_to_ns real - timespec_to_ns req)
                - SAFETY_INTERVAL_NS) }
    ∧ (req.tv_sec ≠ a.tv_sec ∨ NSEC_PER_SEC - instr - width ≤ a.tv_nsec)
    ∧ (req.tv_sec ≠ ts1.tv_sec ∨ NSEC_PER_SEC - instr ≤ ts1.tv_nsec) := by
  refine ⟨?_, busyWait_exit _ _ _ _ _ hb1, busyWait_exit _ _ _ _ _ hb2⟩
  rw [hrtimer_callback_cons, if_neg (by omega),
      if_neg (by push_neg; exact ⟨hsec, hontime⟩)]
  simp only [hb1, hb2, hr2, timespec_to_ns_sub]

/-- Witness for the amended C1 at a concrete on-time trace. -/
theorem C1_witness :
    hrtimer_callback 30000 1000 10000 ⟨100, 0⟩
        [⟨100, 500⟩, ⟨100, 999969000⟩, ⟨100, 999999000⟩, ⟨101, 1000⟩] =
      some { gpio_levels := [PPS_GPIO_HIGH, PPS_GPIO_LOW], missed := false,
             gpio_instr_time := 1500, hrtimer_avg_latency := 7625,
             expires := 101999951375 }
    ∧ ((100 : Int) ≠ 100 ∨ (999969000 : Int) ≤ 999969000)
    ∧ ((100 : Int) ≠ 100 ∨ (999999000 : Int) ≤ 999999000) := by
  have h := C1_on_time_cycle 30000 1000 10000 ⟨100, 0⟩ ⟨100, 500⟩
      ⟨100, 999969000⟩ ⟨100, 999999000⟩ ⟨101, 1000⟩
      [⟨100, 999969000⟩, ⟨100, 999999000⟩, ⟨101, 1000⟩]
      [⟨100, 999999000⟩, ⟨101, 1000⟩] [⟨101, 1000⟩] []
      (by decide) (by decide) (by decide) (by decide) rfl
  exact ⟨h.1.trans (by decide), h.2.1, h.2.2⟩

/-- Claim C2, counterexample: on a concrete on-time trace the cycle updates
    gpio_instr_time to 1500 and hrtimer_avg_latency to 7625, yet the rearmed
    expiry is computed from the entry value 1000 of gpio_instr_time, not
    from the updated 1500. -/
theorem C2_counterexample :
    (hrtimer_callback 30000 1000 10000 ⟨100, 0⟩
        [⟨100, 500⟩, ⟨100, 999969000⟩, ⟨100, 999999000⟩, ⟨101, 1000⟩]).map
        (fun r => (r.gpio_instr_time, r.hrtimer_avg_latency, r.expires))
      = some (1500, 7625, ktime_set (100 + 1)
          (NSEC_PER_SEC - 30000 - 1000 - 7625 - SAFETY_INTERVAL_NS))
    ∧ ktime_set (100 + 1) (NSEC_PER_SEC - 30000 - 1000 - 7625 - SAFETY_INTERVAL_NS)
      ≠ ktime_set (100 + 1) (NSEC_PER_SEC - 30000 - 1500 - 7625 - SAFETY_INTERVAL_NS) :=
  ⟨by decide, by decide⟩

/-- Claim C2, amended: at the end of every cycle that passes the clock
    regression check the timer is rearmed for the requested second plus one,
    at one second minus the pulse width, minus the value gpio_instr_time had
    at callback entry, minus the updated average latency, minus the safety
    interval. -/
theorem C2_rearm_entry_instr (width instr avg : Int) (req real : Timespec)
    (rest : List Timespec) (r : CbResult)
    (hreg : ¬ real.tv_sec > req.tv_sec)
    (hcb : hrtimer_callback width instr avg req (real :: rest) = some r) :
    r.expires = ktime_set (req.tv_sec + 1)
      (NSEC_PER_SEC - width - instr - r.hrtimer_avg_latency - SAFETY_INTERVAL_NS) := by
  rw [hrtimer_callback_cons, if_neg hreg] at hcb
  by_cases hlate : req.tv_sec ≠ real.tv_sec ∨ real.tv_nsec > NSEC_PER_SEC - instr - width
  · rw [if_pos hlate] at hcb
    simp only [Option.some.injEq] at hcb
    subst hcb
    simp only [ktime_set]
    ring
  · rw [if_neg hlate] at hcb
    rcases hb1 : busyWait req.tv_sec (NSEC_PER_SEC - instr - width) rest with _ | ⟨a, rest1⟩
    · rw [hb1] at hcb; exact absurd hcb (by simp)
    · rw [hb1] at hcb
      dsimp only at hcb
      rcases hb2 : busyWait req.tv_sec (NSEC_PER_SEC - instr) rest1 with _ | ⟨b, rest2⟩
      · rw [hb2] at hcb; exact absurd hcb (by simp)
      · rw [hb2] at hcb
        dsimp only at hcb
        rcases rest2 with _ | ⟨ts2, tl⟩
        · exact absurd hcb (by simp)
        · simp only [Option.some.injEq] at hcb
          subst hcb
          simp only [ktime_set]
          ring

/-- Witness for the amended C2 at a concrete late input. -/
theorem C2_witness :
    (50999988000 : Int) =
      ktime_set (50 + 1)
        (NSEC_PER_SEC - 30000 - 2000 - 999970000 - SAFETY_INTERVAL_NS) :=
  C2_rearm_entry_instr 30000 2000 10000 ⟨50, 0⟩ ⟨50, 999970000⟩ []
    { gpio_levels := [], missed := true, gpio_instr_time := 2000,
      hrtimer_avg_latency := 999970000, expires := 50999988000 }
    (by decide) (by decide)

/-- Claim C4: calibration runs exactly one hundred iterations, each writing
    the LOW level once, and stores the truncated mean of the one hundred
    measured durations. -/
theorem C4_calibration_mean (ds : List Int) (h : ds.length = PPS_GEN_CALIBRATE_LOOPS) :
    pps_gen_calibrate (calib_reads_of ds) =
      some (Int.tdiv ds.sum (PPS_GEN_CALIBRATE_LOOPS : Int),
            List.replicate PPS_GEN_CALIBRATE_LOOPS PPS_GPIO_LOW) := by
  have hit := calibrate_iters_reads_of ds
  rw [h] at hit
  simp only [pps_gen_calibrate, hit]

set_option maxRecDepth 4000 in
/-- Witness for C4 on a clock returning one hundred durations of 7ns. -/
theorem C4_witness :
    pps_gen_calibrate (calib_reads_of (List.replicate 100 (7 : Int))) =
      some (7, List.replicate PPS_GEN_CALIBRATE_LOOPS PPS_GPIO_LOW) := by
  have h := C4_calibration_mean (List.replicate 100 (7 : Int)) (by decide)
  rw [h]
  decide

/-- Claim C7: a width of at most 100000ns is accepted and the driver is
    registered; a larger width returns -EINVAL and the driver is not
    registered. -/
theorem C7_width_check :
    ∀ w : Nat,
      (w ≤ GPIO_PULSE_WIDTH_MAX_NS →
        pps_gen_gpio_init w = { retval := 0, driver_registered := true })
      ∧ (GPIO_PULSE_WIDTH_MAX_NS < w →
        pps_gen_gpio_init w = { retval := -22, driver_registered := false }) := by
  intro w
  constructor
  · intro h
    simp only [pps_gen_gpio_init]
    rw [if_neg (by omega)]
  · intro h
    simp only [pps_gen_gpio_init]
    rw [if_pos (by omega)]

/-- Witness for C7 at the boundary values 100000 and 100001. -/
theorem C7_witness :
    pps_gen_gpio_init 100000 = { retval := 0, driver_registered := true }
    ∧ pps_gen_gpio_init 100001 = { retval := -22, driver_registered := false } :=
  ⟨(C7_width_check 100000).1 (by decide), (C7_width_check 100001).2 (by decide)⟩

set_option maxRecDepth 4000 in
/-- Claim C8, counterexample: the last level written to the line before
    calibration runs is HIGH, not LOW. -/
theorem C8_counterexample :
    (pps_gen_gpio_probe 30000 ⟨5, 0⟩
        (calib_reads_of (List.replicate 100 (7 : Int)))).map
        (fun r => r.pre_calib_levels.getLast?) = some (some PPS_GPIO_HIGH)
    ∧ some PPS_GPIO_HIGH ≠ some PPS_GPIO_LOW :=
  ⟨by decide, by decide⟩

/-- Claim C8, amended: probe acquires the output initialized LOW, then
    drives it HIGH before calibration runs, and arms the first deadline at
    the second after now, at one second minus the pulse width, minus the
    freshly calibrated gpio_instr_time, minus three safety intervals. -/
theorem C8_probe_start (width : Int) (now : Timespec) (creads : List Timespec)
    (instr : Int) (sets : List pps_gen_gpio_level)
    (hc : pps_gen_calibrate creads = some (instr, sets)) :
    pps_gen_gpio_probe width now creads =
      some { pre_calib_levels := [PPS_GPIO_LOW, PPS_GPIO_HIGH],
             calib_levels := sets, gpio_instr_time := instr,
             first_expires := ktime_set (now.tv_sec + 1)
               (NSEC_PER_SEC - width - instr - 3 * SAFETY_INTERVAL_NS) } := by
  simp only [pps_gen_gpio_probe, hc, pps_gen_first_timer_event]

set_option maxRecDepth 4000 in
/-- Witness for the amended C8 at a concrete calibration trace. -/
theorem C8_witness :
    pps_gen_gpio_probe 30000 ⟨5, 0⟩ (calib_reads_of (List.replicate 100 (7 : Int))) =
      some { pre_calib_levels := [PPS_GPIO_LOW, PPS_GPIO_HIGH],
             calib_levels := List.replicate 100 PPS_GPIO_LOW,
             gpio_instr_time := 7, first_expires := 6999939993 } := by
  have h := C8_probe_start 30000 ⟨5, 0⟩
      (calib_reads_of (List.replicate 100 (7 : Int))) 7
      (List.replicate 100 PPS_GPIO_LOW) (by decide)
  rw [h]
  decide

/-- Claim C9: the remove path of the driver performs the GPIO release as its
    first action and the timer cancellation only afterwards, so the timer is
    not cancelled before the output capability is released. -/
theorem C9_remove_order :
    pps_gen_gpio_remove.head? = some RemoveStep.devm_gpiod_put
    ∧ pps_gen_gpio_remove ≠ [RemoveStep.hrtimer_cancel, RemoveStep.devm_gpiod_put] :=
  ⟨rfl, by decide⟩

/-- Claim C10: each busy wait terminates whenever some read of the clock
    trace reports a second different from the requested one, even if the
    nanosecond offset never reaches the threshold, and the read it returns
    has left the loop condition. -/
theorem C10_busy_wait_terminates (req_sec thr : Int) (reads : List Timespec)
    (h : ∃ t ∈ reads, t.tv_sec ≠ req_sec) :
    ∃ out rest, busyWait req_sec thr reads = some (out, rest)
      ∧ (req_sec ≠ out.tv_sec ∨ thr ≤ out.tv_nsec) := by
  obtain ⟨t, hmem, hne⟩ := h
  obtain ⟨out, rest, hout⟩ :=
    busyWait_succeeds req_sec thr reads ⟨t, hmem, fun hc => hne hc.1.symm⟩
  exact ⟨out, rest, hout, busyWait_exit req_sec thr reads rest out hout⟩

/-- Witness for C10 on a trace whose second read is in the next second. -/
theorem C10_witness :
    ∃ out rest, busyWait 100 999969000 [⟨100, 5⟩, ⟨101, 7⟩] = some (out, rest)
      ∧ ((100 : Int) ≠ out.tv_sec ∨ (999969000 : Int) ≤ out.tv_nsec) :=
  C10_busy_wait_terminates 100 999969000 [⟨100, 5⟩, ⟨101, 7⟩]
    ⟨⟨101, 7⟩, by decide, by decide⟩

end PpsGenGpio
